import Mathlib

/-!
Verification development for the a2ui-adk weather agent repository.

The definitions below are shallow embeddings of the Python source under
`src/agent/`: the JSON repair heuristics and the validation/retry loop of
`weather_agent.py` (class `WeatherAgent`), the A2UI JSON schema of
`prompt_builder.py` together with the semantics of `jsonschema.validate`
for the keywords that schema uses, and the action-dispatch / status-emission
logic of `weather_agent_executor.py` and `two_agent_executor.py`.
Strings are modelled as `List Char` where character-level scanning matters
and as `String` at the turn level; Python ints/floats inside JSON payloads
are modelled as rationals (only their type, never their rounding, is
relevant to any property proved here).  Recursive scanners take an explicit
fuel argument (always instantiated with the input length, which every
recursive call strictly decreases) so that all definitions reduce inside
the kernel.
-/

/-- Characters Python `str.strip()` / `\s` (ASCII range) treat as whitespace. -/
def isPySpace (c : Char) : Bool :=
  c = ' ' || c = '\t' || c = '\n' || c = '\r' || c = '\x0b' || c = '\x0c'

/-- Drop leading Python whitespace. -/
def skipPyWs : List Char → List Char
  | [] => []
  | c :: r => if isPySpace c then skipPyWs r else c :: r

/-- Does the list start with the given character? -/
def headIs (c : Char) : List Char → Bool
  | [] => false
  | d :: _ => d = c

theorem skipPyWs_length (l : List Char) : (skipPyWs l).length ≤ l.length := by
  induction l with
  | nil => simp [skipPyWs]
  | cons c r ih =>
    simp only [skipPyWs]
    split
    · exact Nat.le_succ_of_le ih
    · exact Nat.le_refl _

theorem skipPyWs_suffix (l : List Char) : skipPyWs l <:+ l := by
  induction l with
  | nil => simp [skipPyWs]
  | cons c r ih =>
    simp only [skipPyWs]
    split
    · exact ih.trans (List.suffix_cons c r)
    · exact List.suffix_refl _

/--
Embedding of `re.sub(r',\s*X', 'X', s)` for a single closer character `X`
(used with `}`, `]`, `)` by `WeatherAgent._repair_json` and
`WeatherAgent._repair_json_aggressive`): scan left to right, and each comma
that is followed by (optional) whitespace and then the closer is removed
together with that whitespace; scanning resumes after the match.  The fuel
argument dominates the input length.
-/
def reSubT (closer : Char) : Nat → List Char → List Char
  | _, [] => []
  | 0, l => l
  | fuel + 1, c :: rest =>
    if c = ',' then
      match skipPyWs rest with
      | d :: r2 =>
        if d = closer then closer :: reSubT closer fuel r2
        else c :: reSubT closer fuel rest
      | [] => c :: reSubT closer fuel rest
    else c :: reSubT closer fuel rest

/-- `re.sub(r',\s*X', 'X', s)` with the fuel fixed to the input length. -/
def reSubTrailing (closer : Char) (l : List Char) : List Char :=
  reSubT closer l.length l

/-- `WeatherAgent._repair_json`: drop trailing separators before `}`, `]`, `)`. -/
def repair_json (l : List Char) : List Char :=
  reSubTrailing ')' (reSubTrailing ']' (reSubTrailing '}' l))

/-- Is there a match of `,\s*closer` anywhere in the list? -/
def hasTrailMatch (closer : Char) : List Char → Bool
  | [] => false
  | c :: rest => (c = ',' && headIs closer (skipPyWs rest)) || hasTrailMatch closer rest

/-- Are there two commas separated only by whitespace anywhere in the list? -/
def hasCommaPair : List Char → Bool
  | [] => false
  | c :: rest => (c = ',' && headIs ',' (skipPyWs rest)) || hasCommaPair rest

example : repair_json ",,\x7d".toList = ",\x7d".toList := by decide
example : repair_json ",\x7d".toList = "\x7d".toList := by decide
example : repair_json "[1,]".toList = "[1]".toList := by decide
example : repair_json "[1, 2]".toList = "[1, 2]".toList := by decide

theorem hasTrailMatch_of_append (closer : Char) (t l : List Char)
    (h : hasTrailMatch closer (t ++ l) = false) : hasTrailMatch closer l = false := by
  induction t with
  | nil => simpa using h
  | cons c t ih =>
    simp only [List.cons_append, hasTrailMatch, Bool.or_eq_false_iff] at h
    exact ih h.2

theorem hasCommaPair_of_append (t l : List Char)
    (h : hasCommaPair (t ++ l) = false) : hasCommaPair l = false := by
  induction t with
  | nil => simpa using h
  | cons c t ih =>
    simp only [List.cons_append, hasCommaPair, Bool.or_eq_false_iff] at h
    exact ih h.2

theorem hasTrailMatch_of_suffix {closer : Char} {l l' : List Char} (hs : l' <:+ l)
    (h : hasTrailMatch closer l = false) : hasTrailMatch closer l' = false := by
  obtain ⟨t, rfl⟩ := hs
  exact hasTrailMatch_of_append closer t l' h

theorem hasCommaPair_of_suffix {l l' : List Char} (hs : l' <:+ l)
    (h : hasCommaPair l = false) : hasCommaPair l' = false := by
  obtain ⟨t, rfl⟩ := hs
  exact hasCommaPair_of_append t l' h

theorem headIs_skipPyWs_reSubT (d closer : Char) (fuel : Nat) (l : List Char)
    (hd : headIs d (skipPyWs l) = false) (hc : headIs ',' (skipPyWs l) = false) :
    headIs d (skipPyWs (reSubT closer fuel l)) = false := by
  induction fuel generalizing l with
  | zero =>
    cases l with
    | nil => simpa [reSubT] using hd
    | cons c rest => simpa [reSubT] using hd
  | succ fuel ih =>
    cases l with
    | nil => simpa [reSubT] using hd
    | cons c rest =>
      by_cases hws : isPySpace c = true
      · have hcomma : (c = ',') = False := by
          simp only [eq_iff_iff, iff_false]
          intro hcc
          subst hcc
          simp [isPySpace] at hws
        have hskip : skipPyWs (c :: rest) = skipPyWs rest := by
          simp [skipPyWs, hws]
        rw [hskip] at hd hc
        simp only [reSubT, hcomma, if_false]
        have : skipPyWs (c :: reSubT closer fuel rest) = skipPyWs (reSubT closer fuel rest) := by
          simp [skipPyWs, hws]
        rw [this]
        exact ih rest hd hc
      · have hskip : skipPyWs (c :: rest) = c :: rest := by
          simp [skipPyWs, hws]
        rw [hskip] at hd hc
        simp only [headIs] at hd hc
        have hc' : ¬(c = ',') := of_decide_eq_false hc
        simp only [reSubT, if_neg hc']
        have h2 : skipPyWs (c :: reSubT closer fuel rest) = c :: reSubT closer fuel rest := by
          simp [skipPyWs, hws]
        rw [h2]
        simpa [headIs] using hd

theorem reSubT_no_match (closer : Char) (fuel : Nat) (l : List Char)
    (h : hasTrailMatch closer l = false) : reSubT closer fuel l = l := by
  induction fuel generalizing l with
  | zero => cases l <;> simp [reSubT]
  | succ fuel ih =>
    cases l with
    | nil => simp [reSubT]
    | cons c rest =>
      simp only [hasTrailMatch, Bool.or_eq_false_iff] at h
      obtain ⟨h1, h2⟩ := h
      by_cases hc : c = ','
      · subst hc
        simp only [decide_True, Bool.true_and] at h1
        rcases hsk : skipPyWs rest with _ | ⟨d, r2⟩
        · simp only [reSubT, eq_self_iff_true, if_true, hsk]
          rw [ih rest h2]
        · rw [hsk] at h1
          simp only [headIs] at h1
          have hdc : ¬(d = closer) := of_decide_eq_false h1
          simp only [reSubT, eq_self_iff_true, if_true, hsk, if_neg hdc]
          rw [ih rest h2]
      · simp only [reSubT, if_neg hc]
        rw [ih rest h2]

theorem reSubT_removes_matches (closer : Char) (hcl : ¬(closer = ','))
    (fuel : Nat) (l : List Char) (hf : l.length ≤ fuel)
    (hcp : hasCommaPair l = false) :
    hasTrailMatch closer (reSubT closer fuel l) = false := by
  induction fuel generalizing l with
  | zero =>
    have hl : l = [] := List.length_eq_zero.mp (Nat.le_zero.mp hf)
    subst hl
    simp [reSubT, hasTrailMatch]
  | succ fuel ih =>
    cases l with
    | nil => simp [reSubT, hasTrailMatch]
    | cons c rest =>
      simp only [List.length_cons, Nat.succ_le_succ_iff] at hf
      simp only [hasCommaPair, Bool.or_eq_false_iff] at hcp
      obtain ⟨hcp1, hcp2⟩ := hcp
      by_cases hc : c = ','
      · subst hc
        simp only [decide_True, Bool.true_and] at hcp1
        rcases hsk : skipPyWs rest with _ | ⟨d, r2⟩
        · simp only [reSubT, eq_self_iff_true, if_true, hsk]
          simp only [hasTrailMatch, Bool.or_eq_false_iff]
          refine ⟨?_, ih rest hf hcp2⟩
          have hh := headIs_skipPyWs_reSubT closer closer fuel rest
            (by rw [hsk]; rfl) (by rw [hsk]; rfl)
          simp [hh]
        · by_cases hdc : d = closer
          · subst hdc
            simp only [reSubT, eq_self_iff_true, if_true, hsk]
            have hsuf : r2 <:+ rest := by
              have h0 : d :: r2 <:+ rest := by
                rw [← hsk]; exact skipPyWs_suffix rest
              exact (List.suffix_cons d r2).trans h0
            have hlen : r2.length ≤ fuel := by
              have := skipPyWs_length rest
              rw [hsk] at this
              simp only [List.length_cons] at this
              omega
            simp only [hasTrailMatch, Bool.or_eq_false_iff]
            refine ⟨?_, ih r2 hlen (hasCommaPair_of_suffix hsuf hcp2)⟩
            simp [hcl]
          · simp only [reSubT, eq_self_iff_true, if_true, hsk, if_neg hdc]
            simp only [hasTrailMatch, Bool.or_eq_false_iff]
            refine ⟨?_, ih rest hf hcp2⟩
            have hd1 : headIs closer (skipPyWs rest) = false := by
              rw [hsk]; simpa [headIs] using hdc
            have hh := headIs_skipPyWs_reSubT closer closer fuel rest hd1 (by rw [hsk] at hcp1 ⊢; exact hcp1)
            simp [hh]
      · simp only [reSubT, if_neg hc]
        simp only [hasTrailMatch, Bool.or_eq_false_iff]
        refine ⟨?_, ih rest hf hcp2⟩
        simp [hc]

theorem reSubT_preserves_noCommaPair (closer : Char) (hcl : ¬(closer = ','))
    (fuel : Nat) (l : List Char) (hf : l.length ≤ fuel)
    (hcp : hasCommaPair l = false) :
    hasCommaPair (reSubT closer fuel l) = false := by
  induction fuel generalizing l with
  | zero =>
    have hl : l = [] := List.length_eq_zero.mp (Nat.le_zero.mp hf)
    subst hl
    simp [reSubT, hasCommaPair]
  | succ fuel ih =>
    cases l with
    | nil => simp [reSubT, hasCommaPair]
    | cons c rest =>
      simp only [List.length_cons, Nat.succ_le_succ_iff] at hf
      simp only [hasCommaPair, Bool.or_eq_false_iff] at hcp
      obtain ⟨hcp1, hcp2⟩ := hcp
      by_cases hc : c = ','
      · subst hc
        simp only [decide_True, Bool.true_and] at hcp1
        rcases hsk : skipPyWs rest with _ | ⟨d, r2⟩
        · simp only [reSubT, eq_self_iff_true, if_true, hsk]
          simp only [hasCommaPair, Bool.or_eq_false_iff]
          refine ⟨?_, ih rest hf hcp2⟩
          have hh := headIs_skipPyWs_reSubT ',' closer fuel rest
            (by rw [hsk]; rfl) (by rw [hsk]; rfl)
          simp [hh]
        · by_cases hdc : d = closer
          · subst hdc
            simp only [reSubT, eq_self_iff_true, if_true, hsk]
            have hsuf : r2 <:+ rest := by
              have h0 : d :: r2 <:+ rest := by
                rw [← hsk]; exact skipPyWs_suffix rest
              exact (List.suffix_cons d r2).trans h0
            have hlen : r2.length ≤ fuel := by
              have := skipPyWs_length rest
              rw [hsk] at this
              simp only [List.length_cons] at this
              omega
            simp only [hasCommaPair, Bool.or_eq_false_iff]
            refine ⟨?_, ih r2 hlen (hasCommaPair_of_suffix hsuf hcp2)⟩
            simp [hcl]
          · simp only [reSubT, eq_self_iff_true, if_true, hsk, if_neg hdc]
            simp only [hasCommaPair, Bool.or_eq_false_iff]
            refine ⟨?_, ih rest hf hcp2⟩
            have hh := headIs_skipPyWs_reSubT ',' closer fuel rest
              (by rw [hsk] at hcp1 ⊢; exact hcp1) (by rw [hsk] at hcp1 ⊢; exact hcp1)
            simp [hh]
      · simp only [reSubT, if_neg hc]
        simp only [hasCommaPair, Bool.or_eq_false_iff]
        refine ⟨?_, ih rest hf hcp2⟩
        simp [hc]

theorem reSubT_no_new_match (c2 c : Char) (hc2 : ¬(c2 = ','))
    (fuel : Nat) (l : List Char) (hf : l.length ≤ fuel)
    (hcp : hasCommaPair l = false) (hm : hasTrailMatch c l = false) :
    hasTrailMatch c (reSubT c2 fuel l) = false := by
  induction fuel generalizing l with
  | zero =>
    have hl : l = [] := List.length_eq_zero.mp (Nat.le_zero.mp hf)
    subst hl
    simp [reSubT, hasTrailMatch]
  | succ fuel ih =>
    cases l with
    | nil => simp [reSubT, hasTrailMatch]
    | cons e rest =>
      simp only [List.length_cons, Nat.succ_le_succ_iff] at hf
      simp only [hasCommaPair, Bool.or_eq_false_iff] at hcp
      obtain ⟨hcp1, hcp2⟩ := hcp
      simp only [hasTrailMatch, Bool.or_eq_false_iff] at hm
      obtain ⟨hm1, hm2⟩ := hm
      by_cases he : e = ','
      · subst he
        simp only [decide_True, Bool.true_and] at hcp1 hm1
        rcases hsk : skipPyWs rest with _ | ⟨d, r2⟩
        · simp only [reSubT, eq_self_iff_true, if_true, hsk]
          simp only [hasTrailMatch, Bool.or_eq_false_iff]
          refine ⟨?_, ih rest hf hcp2 hm2⟩
          have hh := headIs_skipPyWs_reSubT c c2 fuel rest
            (by rw [hsk]; rfl) (by rw [hsk]; rfl)
          simp [hh]
        · by_cases hdc : d = c2
          · subst hdc
            simp only [reSubT, eq_self_iff_true, if_true, hsk]
            have hsuf : r2 <:+ rest := by
              have h0 : d :: r2 <:+ rest := by
                rw [← hsk]; exact skipPyWs_suffix rest
              exact (List.suffix_cons d r2).trans h0
            have hlen : r2.length ≤ fuel := by
              have := skipPyWs_length rest
              rw [hsk] at this
              simp only [List.length_cons] at this
              omega
            simp only [hasTrailMatch, Bool.or_eq_false_iff]
            refine ⟨?_, ih r2 hlen (hasCommaPair_of_suffix hsuf hcp2)
              (hasTrailMatch_of_suffix hsuf hm2)⟩
            simp [hc2]
          · simp only [reSubT, eq_self_iff_true, if_true, hsk, if_neg hdc]
            simp only [hasTrailMatch, Bool.or_eq_false_iff]
            refine ⟨?_, ih rest hf hcp2 hm2⟩
            have hh := headIs_skipPyWs_reSubT c c2 fuel rest
              (by rw [hsk] at hm1 ⊢; exact hm1) (by rw [hsk] at hcp1 ⊢; exact hcp1)
            simp [hh]
      · simp only [reSubT, if_neg he]
        simp only [hasTrailMatch, Bool.or_eq_false_iff]
        refine ⟨?_, ih rest hf hcp2 hm2⟩
        simp [he]

theorem reSubTrailing_no_match (closer : Char) (l : List Char)
    (h : hasTrailMatch closer l = false) : reSubTrailing closer l = l :=
  reSubT_no_match closer l.length l h

theorem repair_json_fixed_point (x : List Char) (h : hasCommaPair x = false) :
    repair_json (repair_json x) = repair_json x := by
  have hb : ¬('}' = ',') := by decide
  have hk : ¬(']' = ',') := by decide
  have hp : ¬(')' = ',') := by decide
  unfold repair_json reSubTrailing
  set a := reSubT '}' x.length x with ha
  have hMa : hasTrailMatch '}' a = false :=
    reSubT_removes_matches '}' hb x.length x le_rfl h
  have hCa : hasCommaPair a = false :=
    reSubT_preserves_noCommaPair '}' hb x.length x le_rfl h
  set b := reSubT ']' a.length a with hbdef
  have hMbK : hasTrailMatch ']' b = false :=
    reSubT_removes_matches ']' hk a.length a le_rfl hCa
  have hCb : hasCommaPair b = false :=
    reSubT_preserves_noCommaPair ']' hk a.length a le_rfl hCa
  have hMbB : hasTrailMatch '}' b = false :=
    reSubT_no_new_match ']' '}' hk a.length a le_rfl hCa hMa
  set c := reSubT ')' b.length b with hcdef
  have hMcP : hasTrailMatch ')' c = false :=
    reSubT_removes_matches ')' hp b.length b le_rfl hCb
  have hMcK : hasTrailMatch ']' c = false :=
    reSubT_no_new_match ')' ']' hp b.length b le_rfl hCb hMbK
  have hMcB : hasTrailMatch '}' c = false :=
    reSubT_no_new_match ')' '}' hp b.length b le_rfl hCb hMbB
  rw [reSubT_no_match '}' c.length c hMcB, reSubT_no_match ']' c.length c hMcK,
    reSubT_no_match ')' c.length c hMcP]

/--
Matcher for the tail of a regex of the form `c0 \s* c1 \s* ... \s* ck`
(the fixed chars of the aggressive-repair patterns separated by optional
whitespace): given the remaining pattern chars and the input after `c0`,
return the rest of the input after a successful match.
-/
def chainTail : List Char → List Char → Option (List Char)
  | [], l => some l
  | p :: ps, l =>
    match skipPyWs l with
    | c :: r => if c = p then chainTail ps r else none
    | [] => none

theorem chainTail_length (ps : List Char) (l r : List Char)
    (h : chainTail ps l = some r) : r.length ≤ l.length := by
  induction ps generalizing l with
  | nil =>
    simp only [chainTail, Option.some_inj] at h
    subst h
    exact le_rfl
  | cons p ps ih =>
    simp only [chainTail] at h
    split at h
    next c r2 hsk =>
      split at h
      · have h1 := ih r2 h
        have h2 := skipPyWs_length l
        rw [hsk] at h2
        simp only [List.length_cons] at h2
        omega
      · exact absurd h (by simp)
    next hsk => exact absurd h (by simp)

/--
Embedding of `re.sub` for a pattern `first \s* p1 \s* ... \s* pk` with a fixed
replacement `rep` (patterns of `WeatherAgent._repair_json_aggressive` such as
`}\s*}\s*}` and `]\s*}\s*}\s*}\s*,`): leftmost, non-overlapping, scanning
resumes after each match.
-/
def reSubChainT (first : Char) (restPat rep : List Char) : Nat → List Char → List Char
  | _, [] => []
  | 0, l => l
  | fuel + 1, c :: rest =>
    if c = first then
      match chainTail restPat rest with
      | some r2 => rep ++ reSubChainT first restPat rep fuel r2
      | none => c :: reSubChainT first restPat rep fuel rest
    else c :: reSubChainT first restPat rep fuel rest

def reSubChain (first : Char) (restPat rep : List Char) (l : List Char) : List Char :=
  reSubChainT first restPat rep l.length l

/-- Last index of a character in a list (`str.rfind`), `none` when absent. -/
def rfindIdx (c : Char) : List Char → Option Nat
  | [] => none
  | x :: rest =>
    match rfindIdx c rest with
    | some i => some (i + 1)
    | none => if x = c then some 0 else none

/-- `str.split('\n')`: split at every separator, keeping empty pieces. -/
def splitOnChar (sep : Char) : List Char → List (List Char)
  | [] => [[]]
  | c :: rest =>
    match splitOnChar sep rest with
    | l :: ls => if c = sep then [] :: l :: ls else (c :: l) :: ls
    | [] => if c = sep then [[], []] else [[c]]

/-- `'\n'.join`. -/
def joinWith (sep : Char) : List (List Char) → List Char
  | [] => []
  | [l] => l
  | l :: ls => l ++ sep :: joinWith sep ls

/-- Python `str.strip()` (both ends, default whitespace). -/
def stripPy (l : List Char) : List Char :=
  ((l.dropWhile isPySpace).reverse.dropWhile isPySpace).reverse

/-- Python `str.rstrip()` (default whitespace). -/
def rstripPy (l : List Char) : List Char :=
  (l.reverse.dropWhile isPySpace).reverse

/-- Python `str.lstrip(chars)`: drop leading characters from the given set. -/
def lstripSet (s : List Char) (l : List Char) : List Char :=
  l.dropWhile (fun c => s.contains c)

/-- Python `str.rstrip(chars)`: drop trailing characters from the given set. -/
def rstripSet (s : List Char) (l : List Char) : List Char :=
  (l.reverse.dropWhile (fun c => s.contains c)).reverse

/--
The balance-repair step of `WeatherAgent._repair_json_aggressive` (the
`missing_braces`/`missing_brackets` block): when opens exceed closes, insert
closers computed from the text before the last `]` right before that `]`
(brackets before braces), or append them at the end when there is no `]`
at a positive index.
-/
def fixBalance (l : List Char) : List Char :=
  let openBraces : Int := l.count '{'
  let closeBraces : Int := l.count '}'
  let openBrackets : Int := l.count '['
  let closeBrackets : Int := l.count ']'
  let missingBraces : Int := openBraces - closeBraces
  let missingBrackets : Int := openBrackets - closeBrackets
  if missingBraces > 0 || missingBrackets > 0 then
    match rfindIdx ']' l with
    | some i =>
      if i > 0 then
        let beforeFinal := l.take i
        let openBefore : Int := (beforeFinal.count '{' : Int) - beforeFinal.count '}'
        let bracketBefore : Int := (beforeFinal.count '[' : Int) - beforeFinal.count ']'
        let closers := List.replicate bracketBefore.toNat ']' ++ List.replicate openBefore.toNat '}'
        if closers.isEmpty then l
        else l.take i ++ closers ++ l.drop i
      else
        rstripPy l ++ List.replicate missingBrackets.toNat ']' ++ List.replicate missingBraces.toNat '}'
    | none =>
      rstripPy l ++ List.replicate missingBrackets.toNat ']' ++ List.replicate missingBraces.toNat '}'
  else l

/--
The per-line truncation step of `WeatherAgent._repair_json_aggressive`: on a
line whose only `]` sits at a positive index, drop everything after it when
the (stripped) remainder is non-empty and does not start with a comma.
-/
def fixLine (line : List Char) : List Char :=
  if line.count ']' = 1 then
    match rfindIdx ']' line with
    | some pos =>
      if pos > 0 then
        let afterBracket := stripPy (line.drop (pos + 1))
        if afterBracket ≠ [] ∧ headIs ',' afterBracket = false then
          line.take (pos + 1)
        else line
      else line
    | none => line
  else line

def fixLines (l : List Char) : List Char :=
  joinWith '\n' ((splitOnChar '\n' l).map fixLine)

/-- `WeatherAgent._repair_json_aggressive`, steps in source order. -/
def repair_json_aggressive (l : List Char) : List Char :=
  let s1 := reSubTrailing ']' (reSubTrailing '}' l)
  let s2 := reSubChain '}' ['}', '}'] ['}', '}', '}'] s1
  let s3 := reSubChain '}' ['}', ']'] ['}', ']'] s2
  let s4 := reSubChain ']' ['}', '}', '}', ','] [']', ' ', '}', ' ', '}', ' ', '}', ' ', '}', ','] s3
  let s5 := fixBalance s4
  let s6 := fixLines s5
  reSubTrailing ']' (reSubTrailing '}' s6)

example : repair_json_aggressive ",,,\x7d".toList = ",\x7d".toList := by decide
example : repair_json_aggressive ",\x7d".toList = "\x7d".toList := by decide
example : repair_json_aggressive "[ \x7b".toList = "[ \x7b]".toList := by decide

/-- A Python number produced by `json.loads`: the value as a rational (ints and
floats are distinguished only by integrality, which is all `jsonschema` looks
at), plus the non-standard constants the stdlib parser accepts. -/
inductive JNum where
  | rat (q : ℚ)
  | nan
  | inf
  | negInf
deriving DecidableEq

/-- A parsed JSON value (the result type of `json.loads`); objects keep their
entries in textual order, and lookups take the last binding, like a Python
dict built by repeated assignment. -/
inductive Json where
  | null
  | bool (b : Bool)
  | num (n : JNum)
  | str (s : String)
  | arr (elems : List Json)
  | obj (entries : List (String × Json))

/-- JSON inter-token whitespace (`json.decoder` uses exactly these four). -/
def isJsonWs (c : Char) : Bool :=
  c = ' ' || c = '\t' || c = '\n' || c = '\r'

def skipJWs (l : List Char) : List Char :=
  l.dropWhile isJsonWs

def digitsToNat (ds : List Char) : Nat :=
  ds.foldl (fun a c => a * 10 + (c.toNat - 48)) 0

/-- Integer part of the `json` number regex `-?(?:0|[1-9]\d*)`, sign consumed. -/
def parseIntPart : List Char → Option (Nat × List Char)
  | [] => none
  | c :: rest =>
    if c = '0' then some (0, rest)
    else if c.isDigit then
      let p := rest.span Char.isDigit
      some (digitsToNat (c :: p.1), p.2)
    else none

/-- Optional fraction `(\.\d+)?`: value, number of digits, rest. -/
def parseFracPart (l : List Char) : Nat × Nat × List Char :=
  match l with
  | '.' :: c :: rest =>
    if c.isDigit then
      let p := rest.span Char.isDigit
      (digitsToNat (c :: p.1), p.1.length + 1, p.2)
    else (0, 0, l)
  | _ => (0, 0, l)

/-- Optional exponent `([eE][-+]?\d+)?`: signed exponent and rest. -/
def parseExpPart (l : List Char) : Int × List Char :=
  match l with
  | c :: rest =>
    if c = 'e' || c = 'E' then
      let sr : Int × List Char :=
        match rest with
        | '+' :: r => (1, r)
        | '-' :: r => (-1, r)
        | r => (1, r)
      match sr.2 with
      | d :: _ =>
        if d.isDigit then
          let p := sr.2.span Char.isDigit
          (sr.1 * (digitsToNat p.1 : Int), p.2)
        else (0, l)
      | [] => (0, l)
    else (0, l)
  | [] => (0, l)

/-- The number production of `json.loads` (`NUMBER_RE` followed by int/float
conversion); the rational value is exact, Python would round floats. -/
def parseNumber (l : List Char) : Option (JNum × List Char) :=
  let sl : Bool × List Char :=
    match l with
    | '-' :: r => (true, r)
    | _ => (false, l)
  match parseIntPart sl.2 with
  | none => none
  | some (ip, r1) =>
    let f := parseFracPart r1
    let e := parseExpPart f.2.2
    let mant : Nat := ip * 10 ^ f.2.1 + f.1
    let signed : Int := if sl.1 then -(mant : Int) else (mant : Int)
    some (JNum.rat ((signed : ℚ) * (10 : ℚ) ^ (e.1 - (f.2.1 : Int))), e.2)

def hexDigitVal (c : Char) : Option Nat :=
  if c.isDigit then some (c.toNat - 48)
  else if 'a' ≤ c && c ≤ 'f' then some (c.toNat - 87)
  else if 'A' ≤ c && c ≤ 'F' then some (c.toNat - 55)
  else none

def parse4Hex : List Char → Option (Nat × List Char)
  | a :: b :: c :: d :: rest =>
    match hexDigitVal a, hexDigitVal b, hexDigitVal c, hexDigitVal d with
    | some x, some y, some z, some w => some (((x * 16 + y) * 16 + z) * 16 + w, rest)
    | _, _, _, _ => none
  | _ => none

def consO (c : Char) : Option (List Char × List Char) → Option (List Char × List Char)
  | some p => some (c :: p.1, p.2)
  | none => none

/-- JSON string body (after the opening quote) in strict mode: control
characters are rejected, the eight short escapes and `\uXXXX` (with surrogate
pairing) are decoded.  A lone surrogate is accepted, as Python does; its
character value is immaterial to every property proved here. -/
def parseStringT : Nat → List Char → Option (List Char × List Char)
  | 0, _ => none
  | fuel + 1, l =>
    match l with
    | [] => none
    | c :: rest =>
      if c = '"' then some ([], rest)
      else if c = '\\' then
        match rest with
        | [] => none
        | e :: r2 =>
          if e = '"' then consO '"' (parseStringT fuel r2)
          else if e = '\\' then consO '\\' (parseStringT fuel r2)
          else if e = '/' then consO '/' (parseStringT fuel r2)
          else if e = 'b' then consO '\x08' (parseStringT fuel r2)
          else if e = 'f' then consO '\x0c' (parseStringT fuel r2)
          else if e = 'n' then consO '\n' (parseStringT fuel r2)
          else if e = 'r' then consO '\r' (parseStringT fuel r2)
          else if e = 't' then consO '\t' (parseStringT fuel r2)
          else if e = 'u' then
            match parse4Hex r2 with
            | none => none
            | some (n, r3) =>
              if 0xD800 ≤ n && n ≤ 0xDBFF then
                match r3 with
                | '\\' :: 'u' :: r4 =>
                  match parse4Hex r4 with
                  | some (m, r5) =>
                    if 0xDC00 ≤ m && m ≤ 0xDFFF then
                      consO (Char.ofNat (0x10000 + (n - 0xD800) * 0x400 + (m - 0xDC00)))
                        (parseStringT fuel r5)
                    else consO (Char.ofNat n) (parseStringT fuel r3)
                  | none => consO (Char.ofNat n) (parseStringT fuel r3)
                | _ => consO (Char.ofNat n) (parseStringT fuel r3)
              else consO (Char.ofNat n) (parseStringT fuel r3)
          else none
      else if c.toNat < 0x20 then none
      else consO c (parseStringT fuel rest)

def parseString (l : List Char) : Option (List Char × List Char) :=
  parseStringT (l.length + 1) l

/-- Parser mode: a plain value, or the element loop of an array / object in
progress (with the elements parsed so far). -/
inductive PMode where
  | value
  | arrElems (acc : List Json)
  | objElems (acc : List (String × Json))

/-- The recursive core of `json.loads` (one fueled function covering the
scanner's value/array/object productions). -/
def parseT : Nat → PMode → List Char → Option (Json × List Char)
  | 0, _, _ => none
  | fuel + 1, PMode.value, l =>
    match l with
    | [] => none
    | c :: rest =>
      if c = '"' then
        match parseString rest with
        | some p => some (Json.str (String.mk p.1), p.2)
        | none => none
      else if c = '{' then
        match skipJWs rest with
        | '}' :: r2 => some (Json.obj [], r2)
        | r => parseT fuel (PMode.objElems []) r
      else if c = '[' then
        match skipJWs rest with
        | ']' :: r2 => some (Json.arr [], r2)
        | r => parseT fuel (PMode.arrElems []) r
      else if c = 'n' then
        if ['u', 'l', 'l'].isPrefixOf rest then some (Json.null, rest.drop 3) else none
      else if c = 't' then
        if ['r', 'u', 'e'].isPrefixOf rest then some (Json.bool true, rest.drop 3) else none
      else if c = 'f' then
        if ['a', 'l', 's', 'e'].isPrefixOf rest then some (Json.bool false, rest.drop 4) else none
      else if c = 'N' then
        if ['a', 'N'].isPrefixOf rest then some (Json.num JNum.nan, rest.drop 2) else none
      else if c = 'I' then
        if ['n', 'f', 'i', 'n', 'i', 't', 'y'].isPrefixOf rest then
          some (Json.num JNum.inf, rest.drop 7)
        else none
      else
        match parseNumber l with
        | some p => some (Json.num p.1, p.2)
        | none =>
          if c = '-' && ['I', 'n', 'f', 'i', 'n', 'i', 't', 'y'].isPrefixOf rest then
            some (Json.num JNum.negInf, rest.drop 8)
          else none
  | fuel + 1, PMode.arrElems acc, l =>
    match parseT fuel PMode.value l with
    | none => none
    | some (v, r1) =>
      match skipJWs r1 with
      | ',' :: r2 => parseT fuel (PMode.arrElems (v :: acc)) (skipJWs r2)
      | ']' :: r2 => some (Json.arr (v :: acc).reverse, r2)
      | _ => none
  | fuel + 1, PMode.objElems acc, l =>
    match l with
    | '"' :: r0 =>
      match parseString r0 with
      | none => none
      | some (k, r1) =>
        match skipJWs r1 with
        | ':' :: r2 =>
          match parseT fuel PMode.value (skipJWs r2) with
          | none => none
          | some (v, r3) =>
            match skipJWs r3 with
            | ',' :: r4 => parseT fuel (PMode.objElems ((String.mk k, v) :: acc)) (skipJWs r4)
            | '}' :: r4 => some (Json.obj ((String.mk k, v) :: acc).reverse, r4)
            | _ => none
        | _ => none
    | _ => none

/-- `json.loads`: parse one value framed only by whitespace. -/
def jsonLoads (l : List Char) : Option Json :=
  match parseT (2 * l.length + 4) PMode.value (skipJWs l) with
  | some p => if skipJWs p.2 = [] then some p.1 else none
  | none => none

example : (jsonLoads "[1, 2]".toList).isSome = true := by decide
example : (jsonLoads "\x7b\"a\": [1]\x7d".toList).isSome = true := by decide
example : (jsonLoads "[\",\x7d\"]".toList).isSome = true := by decide
example : (jsonLoads "[1,]".toList).isSome = false := by decide
example : (jsonLoads "[01]".toList).isSome = false := by decide
example : (jsonLoads "\x7b\"a\": -1.5e2, \"b\": NaN\x7d".toList).isSome = true := by decide
example : (jsonLoads "[ \x7b]".toList).isSome = false := by decide
example : (jsonLoads "[\x7b\"a\": [1]]\x7d]".toList).isSome = false := by decide
example : (jsonLoads "\x7b\"a\": [1]".toList).isSome = false := by decide

/-- Lookup in a JSON object with Python-dict semantics (last binding wins). -/
def pyDictGet (kvs : List (String × Json)) (k : String) : Option Json :=
  ((kvs.filter (fun p => p.1 = k)).map Prod.snd).getLast?

def pyDictHas (kvs : List (String × Json)) (k : String) : Bool :=
  kvs.any (fun p => p.1 = k)

/--
Deep embedding of the JSON-Schema fragment used by `A2UI_SCHEMA`
(`prompt_builder.py`): every subschema there is an object schema
(`properties` + optional `required`), an array schema (`items` + optional
`minItems`), a string schema (optionally with `enum` or the one `pattern`),
or a plain number / integer / boolean type check.  No `oneOf`, `anyOf`,
`additionalProperties`, `$ref` or message-level `required` occurs anywhere
in `A2UI_SCHEMA`.
-/
inductive Sch where
  | sObject (props : List (String × Sch)) (required : List String)
  | sArray (minItems : Nat) (item : Sch)
  | sString
  | sStringEnum (vals : List String)
  | sStringHexColor
  | sNumber
  | sInteger
  | sBoolean

def isHexDigitAscii (c : Char) : Bool :=
  c.isDigit || ('a' ≤ c && c ≤ 'f') || ('A' ≤ c && c ≤ 'F')

/-- `re.search(r'^#[0-9a-fA-F]{6}$', s)`: the anchored hex-color pattern of
`styles.primaryColor`; `$` also matches just before one trailing newline. -/
def hexColorMatch (s : String) : Bool :=
  let core : List Char → Bool := fun l =>
    match l with
    | '#' :: rest => rest.length = 6 && rest.all isHexDigitAscii
    | _ => false
  let l := s.toList
  core l ||
    (match l.getLast? with
     | some '\n' => core l.dropLast
     | _ => false)

/--
`jsonschema.validate` semantics for the `Sch` fragment: `type` rejects
values of the wrong type, `properties` constrains only keys that are
present, `required` demands presence, `enum` demands membership, `items`
applies to every element, `minItems` bounds the length, and (per draft
2020-12, the default validator for a schema without `$schema`) `integer`
accepts any number with zero fractional part.  The fuel bounds the schema
nesting depth, which the recursion strictly decreases.
-/
def validateT : Nat → Sch → Json → Bool
  | 0, _, _ => false
  | fuel + 1, s, v =>
    match s, v with
    | .sObject props reqd, .obj kvs =>
      reqd.all (fun r => pyDictHas kvs r) &&
      props.all (fun p =>
        match pyDictGet kvs p.1 with
        | some w => validateT fuel p.2 w
        | none => true)
    | .sObject _ _, _ => false
    | .sArray minI item, .arr xs =>
      decide (minI ≤ xs.length) && xs.all (fun x => validateT fuel item x)
    | .sArray _ _, _ => false
    | .sString, .str _ => true
    | .sString, _ => false
    | .sStringEnum vals, .str t => vals.contains t
    | .sStringEnum _, _ => false
    | .sStringHexColor, .str t => hexColorMatch t
    | .sStringHexColor, _ => false
    | .sNumber, .num _ => true
    | .sNumber, _ => false
    | .sInteger, .num n =>
      (match n with
       | .rat q => decide (q.den = 1)
       | _ => false)
    | .sInteger, _ => false
    | .sBoolean, .bool _ => true
    | .sBoolean, _ => false

/-- `jsonschema.validate` against a schema of the embedded fragment (fuel is
far above the fixed nesting depth of `A2UI_SCHEMA`). -/
def jsonschema_validate (s : Sch) (v : Json) : Bool :=
  validateT 100 s v

/-- `{"literalString": {"type":"string"}, "path": {"type":"string"}}`, the
recurring string-or-data-model-path value wrapper. -/
def valStrOrPath : Sch :=
  .sObject [("literalString", .sString), ("path", .sString)] []

/-- The `children` wrapper shared by Row / Column / List. -/
def childrenSch : Sch :=
  .sObject
    [("explicitList", .sArray 0 .sString),
     ("template", .sObject
        [("componentId", .sString), ("dataBinding", .sString)]
        ["componentId", "dataBinding"])]
    []

def iconNameEnum : List String :=
  ["accountCircle", "add", "arrowBack", "arrowForward", "attachFile",
   "calendarToday", "call", "camera", "check", "close", "delete", "download",
   "edit", "event", "error", "favorite", "favoriteOff", "folder", "help",
   "home", "info", "locationOn", "lock", "lockOpen", "mail", "menu",
   "moreVert", "moreHoriz", "notificationsOff", "notifications", "payment",
   "person", "phone", "photo", "print", "refresh", "search", "send",
   "settings", "share", "shoppingCart", "star", "starHalf", "starOff",
   "upload", "visibility", "visibilityOff", "warning"]

/-- The `component` wrapper of a surface-update component: one property per
supported component kind (the schema itself imposes no exactly-one rule). -/
def componentWrapperSch : Sch :=
  .sObject
    [("Text", .sObject
        [("text", valStrOrPath),
         ("usageHint", .sStringEnum ["h1", "h2", "h3", "h4", "h5", "caption", "body"])]
        ["text"]),
     ("Image", .sObject
        [("url", valStrOrPath),
         ("fit", .sStringEnum ["contain", "cover", "fill", "none", "scale-down"]),
         ("usageHint", .sStringEnum
            ["icon", "avatar", "smallFeature", "mediumFeature", "largeFeature", "header"])]
        ["url"]),
     ("Icon", .sObject
        [("name", .sObject
            [("literalString", .sStringEnum iconNameEnum), ("path", .sString)] [])]
        ["name"]),
     ("Video", .sObject [("url", valStrOrPath)] ["url"]),
     ("AudioPlayer", .sObject
        [("url", valStrOrPath), ("description", valStrOrPath)] ["url"]),
     ("Row", .sObject
        [("children", childrenSch),
         ("distribution", .sStringEnum
            ["center", "end", "spaceAround", "spaceBetween", "spaceEvenly", "start"]),
         ("alignment", .sStringEnum ["start", "center", "end", "stretch"])]
        ["children"]),
     ("Column", .sObject
        [("children", childrenSch),
         ("distribution", .sStringEnum
            ["start", "center", "end", "spaceBetween", "spaceAround", "spaceEvenly"]),
         ("alignment", .sStringEnum ["center", "end", "start", "stretch"])]
        ["children"]),
     ("List", .sObject
        [("children", childrenSch),
         ("direction", .sStringEnum ["vertical", "horizontal"]),
         ("alignment", .sStringEnum ["start", "center", "end", "stretch"])]
        ["children"]),
     ("Card", .sObject [("child", .sString)] ["child"]),
     ("Tabs", .sObject
        [("tabItems", .sArray 0 (.sObject
            [("title", valStrOrPath), ("child", .sString)] ["title", "child"]))]
        ["tabItems"]),
     ("Divider", .sObject
        [("axis", .sStringEnum ["horizontal", "vertical"])] []),
     ("Modal", .sObject
        [("entryPointChild", .sString), ("contentChild", .sString)]
        ["entryPointChild", "contentChild"]),
     ("Button", .sObject
        [("child", .sString),
         ("primary", .sBoolean),
         ("action", .sObject
            [("name", .sString),
             ("context", .sArray 0 (.sObject
                [("key", .sString),
                 ("value", .sObject
                    [("path", .sString), ("literalString", .sString),
                     ("literalNumber", .sNumber), ("literalBoolean", .sBoolean)]
                    [])]
                ["key", "value"]))]
            ["name"])]
        ["child", "action"]),
     ("CheckBox", .sObject
        [("label", valStrOrPath),
         ("value", .sObject
            [("literalBoolean", .sBoolean), ("path", .sString)] [])]
        ["label", "value"]),
     ("TextField", .sObject
        [("label", valStrOrPath),
         ("text", valStrOrPath),
         ("textFieldType", .sStringEnum
            ["date", "longText", "number", "shortText", "obscured"]),
         ("validationRegexp", .sString)]
        ["label"]),
     ("DateTimeInput", .sObject
        [("value", valStrOrPath),
         ("enableDate", .sBoolean),
         ("enableTime", .sBoolean),
         ("outputFormat", .sString)]
        ["value"]),
     ("MultipleChoice", .sObject
        [("selections", .sObject
            [("literalArray", .sArray 0 .sString), ("path", .sString)] []),
         ("options", .sArray 0 (.sObject
            [("label", valStrOrPath), ("value", .sString)] ["label", "value"])),
         ("maxAllowedSelections", .sInteger)]
        ["selections", "options"]),
     ("Slider", .sObject
        [("value", .sObject
            [("literalNumber", .sNumber), ("path", .sString)] []),
         ("minValue", .sNumber),
         ("maxValue", .sNumber)]
        ["value"])]
    []

/-- One element of `surfaceUpdate.components`. -/
def componentSch : Sch :=
  .sObject
    [("id", .sString), ("weight", .sNumber), ("component", componentWrapperSch)]
    ["id", "component"]

/-- One entry of a `valueMap` adjacency list. -/
def mapEntrySch : Sch :=
  .sObject
    [("key", .sString), ("valueString", .sString), ("valueNumber", .sNumber),
     ("valueBoolean", .sBoolean)]
    ["key"]

/-- One entry of `dataModelUpdate.contents`. -/
def dmEntrySch : Sch :=
  .sObject
    [("key", .sString), ("valueString", .sString), ("valueNumber", .sNumber),
     ("valueBoolean", .sBoolean), ("valueMap", .sArray 0 mapEntrySch)]
    ["key"]

/-- `A2UI_SCHEMA` (`prompt_builder.py`): the schema of a single A2UI message.
Its top level is `{"type": "object", "properties": {...the four actions...}}`
with no `required`, no `oneOf` and no `additionalProperties`. -/
def a2uiMessageSchema : Sch :=
  .sObject
    [("beginRendering", .sObject
        [("surfaceId", .sString),
         ("root", .sString),
         ("styles", .sObject
            [("font", .sString), ("primaryColor", .sStringHexColor)] [])]
        ["root", "surfaceId"]),
     ("surfaceUpdate", .sObject
        [("surfaceId", .sString),
         ("components", .sArray 1 componentSch)]
        ["surfaceId", "components"]),
     ("dataModelUpdate", .sObject
        [("surfaceId", .sString),
         ("path", .sString),
         ("contents", .sArray 0 dmEntrySch)]
        ["contents", "surfaceId"]),
     ("deleteSurface", .sObject
        [("surfaceId", .sString)]
        ["surfaceId"])]
    []

/-- `self.a2ui_schema_object = {"type": "array", "items": single_message_schema}`
(`WeatherAgent.__init__`). -/
def a2ui_schema_object : Sch :=
  .sArray 0 a2uiMessageSchema

/-- How many of the four recognized action keys an element carries. -/
def actionKeyCount (kvs : List (String × Json)) : Nat :=
  (["beginRendering", "surfaceUpdate", "dataModelUpdate", "deleteSurface"].filter
    (fun k => pyDictHas kvs k)).length

example : jsonschema_validate a2ui_schema_object (Json.arr []) = true := by decide
example : jsonschema_validate a2ui_schema_object (Json.arr [Json.obj []]) = true := by decide
example : jsonschema_validate a2ui_schema_object (Json.str "x") = false := by decide
example : jsonschema_validate a2ui_schema_object
    (Json.arr [Json.obj [("deleteSurface", Json.obj [("surfaceId", Json.str "s")])]]) = true := by decide
example : jsonschema_validate a2ui_schema_object
    (Json.arr [Json.obj [("deleteSurface", Json.obj [])]]) = false := by decide

/-- Python truthiness of a JSON-decoded value (`bool(x)`). -/
def pyTruthy : Json → Bool
  | Json.null => false
  | Json.bool b => b
  | Json.num n =>
    (match n with
     | JNum.rat q => decide (q ≠ 0)
     | _ => true)
  | Json.str s => decide (s ≠ "")
  | Json.arr xs => !xs.isEmpty
  | Json.obj kvs => !kvs.isEmpty

/-- Python `str.lower()` (ASCII range, which covers every comparison made). -/
def pyLower (s : String) : String :=
  String.mk (s.toList.map Char.toLower)

/-- `str.find`-style first split on a substring (`s.split(pat, 1)` combined
with the `pat in s` test; `none` when the pattern does not occur). -/
def splitFirst (pat : List Char) : List Char → Option (List Char × List Char)
  | [] => if pat.isPrefixOf ([] : List Char) then some ([], []) else none
  | c :: rest =>
    if pat.isPrefixOf (c :: rest) then some ([], (c :: rest).drop pat.length)
    else
      match splitFirst pat rest with
      | some p => some (c :: p.1, p.2)
      | none => none

def hasInfixStr (pat s : String) : Bool :=
  (splitFirst pat.toList s.toList).isSome

/--
`WeatherAgentExecutor.execute`, confirmAlerts branch: decode one checkbox
selection from a context value.  A dict yields its `literalBoolean` when
present, otherwise `False` (an unresolved `path` is logged and dropped); a
bool passes through; a string compares case-insensitively against
`["true", "1", "yes"]`; anything else is `bool(raw)` unless it equals
`None`/`""`.
-/
def decodeSelectionWeather (raw : Json) : Json :=
  match raw with
  | Json.obj d =>
    if pyDictHas d "literalBoolean" then (pyDictGet d "literalBoolean").getD Json.null
    else if pyDictHas d "path" then Json.bool false
    else Json.bool false
  | Json.bool b => Json.bool b
  | Json.str s =>
    Json.bool (pyLower s = "true" || pyLower s = "1" || pyLower s = "yes")
  | other => Json.bool (pyTruthy other)

/--
`TwoAgentExecutor.execute`, confirmWeather branch: decode one checkbox
selection.  A dict yields its `literalBoolean` when present, else `True`
when it carries a `path` key; a bool passes through; a string must equal
`"true"` case-insensitively; anything else keeps the initial `False`.
-/
def decodeSelectionTwo (raw : Json) : Json :=
  match raw with
  | Json.obj d =>
    if pyDictHas d "literalBoolean" then (pyDictGet d "literalBoolean").getD Json.null
    else if pyDictHas d "path" then Json.bool true
    else Json.bool false
  | Json.bool b => Json.bool b
  | Json.str s => Json.bool (pyLower s = "true")
  | _ => Json.bool false

/-- Shared option-list construction: forecast first, alerts second, and the
default-to-forecast rule when neither is selected. -/
def selectedOptionsOf (f a : Bool) : List String :=
  let opts := (if f then ["forecast"] else []) ++ (if a then ["alerts"] else [])
  if opts = [] then ["forecast"] else opts

/-- What an executor decides to do with an inbound user-action turn before
any task events are produced. -/
inductive RoutedTurn where
  | silent
  | shortCircuit (text : String)
  | invoke (query : String)

/-- `str(x)` for an optional action name (`None` prints as `"None"`). -/
def pyShow : Option String → String
  | some s => s
  | none => "None"

/--
Action dispatch of `TwoAgentExecutor.execute` (lines 230-309): confirm
builds the fetch instruction and goes to the weather agent, reject
immediately emits a fixed completed turn, anything else is forwarded as
text.  `render` stands for Python string interpolation of a decoded JSON
value (`str(x)`).
-/
def routeTwoAgent (render : Json → String) (action : Option String)
    (ctx : List (String × Json)) : RoutedTurn :=
  if action = some "confirmWeather" then
    let location := (pyDictGet ctx "location").getD (Json.str "Unknown")
    let latitude := (pyDictGet ctx "latitude").getD (Json.num (JNum.rat 0))
    let longitude := (pyDictGet ctx "longitude").getD (Json.num (JNum.rat 0))
    let display_name := (pyDictGet ctx "display_name").getD location
    let state_code := (pyDictGet ctx "state_code").getD (Json.str "")
    let forecast_selected :=
      pyTruthy (decodeSelectionTwo ((pyDictGet ctx "forecastSelected").getD (Json.bool false)))
    let alerts_selected :=
      pyTruthy (decodeSelectionTwo ((pyDictGet ctx "alertsSelected").getD (Json.bool false)))
    let sel := selectedOptionsOf forecast_selected alerts_selected
    let options_text := String.intercalate " and " sel
    let q1 := "The user has confirmed they want weather information for " ++
      render display_name ++ ".\nLocation: " ++ render display_name ++
      "\nCoordinates: latitude=" ++ render latitude ++ ", longitude=" ++ render longitude ++
      "\nState Code: " ++ render state_code ++ "\nUser selected: " ++ options_text ++
      "\n\nYOU MUST:"
    let q2 := if sel.contains "forecast" then
        q1 ++ "\n1. Call get_forecast(" ++ render latitude ++ ", " ++ render longitude ++
          ") to get forecast data"
      else q1
    let q3 := if sel.contains "alerts" then
        q2 ++ "\n2. Call get_alerts(\x27" ++ render state_code ++ "\x27) to get weather alerts"
      else q2
    RoutedTurn.invoke
      (q3 ++ "\n\nThen display ALL the data you receive using A2UI JSON format with cards and widgets.")
  else if action = some "rejectWeather" then
    RoutedTurn.shortCircuit "No problem! Let me know if you change your mind."
  else
    RoutedTurn.invoke ("User action: " ++ pyShow action)

/--
Action dispatch of `WeatherAgentExecutor.execute` (lines 297-433): every
branch that produces a query, including the reject branch, goes on to invoke
the agent; only `toggle_option` returns with no outbound turn.  `showCtx`
stands for Python string interpolation of the context dict.
-/
def routeWeatherExec (render : Json → String)
    (showCtx : List (String × Json) → String) (action : Option String)
    (ctx : List (String × Json)) : RoutedTurn :=
  if action = some "confirmAlerts" then
    let location := (pyDictGet ctx "location").getD (Json.str "Unknown Location")
    let latitude := (pyDictGet ctx "latitude").getD (Json.num (JNum.rat 0))
    let longitude := (pyDictGet ctx "longitude").getD (Json.num (JNum.rat 0))
    let display_name := (pyDictGet ctx "display_name").getD location
    let state_code := (pyDictGet ctx "state_code").getD (Json.str "")
    let forecast_selected :=
      pyTruthy (decodeSelectionWeather ((pyDictGet ctx "forecastSelected").getD (Json.bool false)))
    let alerts_selected :=
      pyTruthy (decodeSelectionWeather ((pyDictGet ctx "alertsSelected").getD (Json.bool false)))
    let sel := selectedOptionsOf forecast_selected alerts_selected
    let options_text := String.intercalate ", " sel
    let q1 := "=== THIS IS A CONFIRMATION MESSAGE - DO NOT CALL show_weather_confirmation() ===" ++
      "\n\nPREVIOUS CONVERSATION CONTEXT:\n- User asked: \"What is the weather in " ++
      render display_name ++ "?\"\n- You called geocode_location(\"" ++ render display_name ++
      "\") and got coordinates: lat=" ++ render latitude ++ ", lon=" ++ render longitude ++
      "\n- You called show_weather_confirmation() and the confirmation UI was shown to the user" ++
      "\n- The user has NOW confirmed their selection\n\nUSER CONFIRMED WEATHER REQUEST:\nLocation: " ++
      render display_name ++ "\nCoordinates: latitude=" ++ render latitude ++ ", longitude=" ++
      render longitude ++ "  \nState Code: " ++ render state_code ++ "\nSelected Options: " ++
      options_text ++ "\n\nCRITICAL INSTRUCTIONS - READ CAREFULLY:" ++
      "\n1. DO NOT call show_weather_confirmation() - it was already called and the user has confirmed" ++
      "\n2. DO NOT call geocode_location() - you already have the coordinates from before" ++
      "\n3. IMMEDIATELY fetch weather data using these EXACT function calls based on selected options:\n"
    let q2 := if sel.contains "forecast" then
        q1 ++ "   - Call get_forecast(" ++ render latitude ++ ", " ++ render longitude ++ ")\n"
      else q1
    let q3 := if sel.contains "alerts" then
        q2 ++ "   - Call get_alerts(\"" ++ render state_code ++ "\")\n"
      else q2
    RoutedTurn.invoke
      (q3 ++ "4. Display the results using WEATHER_FORECAST_EXAMPLE or WEATHER_ALERTS_EXAMPLE templates" ++
       "\n\nThis is NOT a new weather query - this is the CONFIRMATION of your previous query. Fetch the data now.")
  else if action = some "rejectAlerts" then
    let location := (pyDictGet ctx "location").getD (Json.str "Unknown Location")
    let display_name := (pyDictGet ctx "display_name").getD location
    RoutedTurn.invoke
      ("User rejected weather query for " ++ render display_name ++ ". No weather data will be fetched.")
  else if action = some "confirm_weather_selection" then
    let location := (pyDictGet ctx "location").getD (Json.str "Unknown Location")
    let latitude := (pyDictGet ctx "latitude").getD (Json.num (JNum.rat 0))
    let longitude := (pyDictGet ctx "longitude").getD (Json.num (JNum.rat 0))
    let state_code := (pyDictGet ctx "state_code").getD (Json.str "")
    let selected_options :=
      match (pyDictGet ctx "selected_options").getD (Json.arr []) with
      | Json.arr xs => xs.filterMap (fun j => match j with | Json.str s => some s | _ => none)
      | _ => []
    let options_text :=
      if selected_options ≠ [] then String.intercalate ", " selected_options
      else "forecast, alerts"
    RoutedTurn.invoke
      ("User confirmed weather query for " ++ render location ++ " (lat: " ++ render latitude ++
       ", lon: " ++ render longitude ++ ", state: " ++ render state_code ++
       "). Selected options: " ++ options_text ++ ". Please fetch the weather data.")
  else if action = some "toggle_option" then
    RoutedTurn.silent
  else
    RoutedTurn.invoke
      ("User submitted an event: " ++ pyShow action ++ " with data: " ++ showCtx ctx)

/-- The three externally visible task states. -/
inductive TaskStateL where
  | working
  | input_required
  | completed
deriving DecidableEq

/-- `final_state` computation of `WeatherAgentExecutor.execute` (lines 530-534). -/
def final_stateW (action : Option String) : TaskStateL :=
  if action = some "confirmAlerts" ∨ action = some "confirm_weather_selection" ∨
     action = some "rejectAlerts" then
    TaskStateL.completed
  else TaskStateL.input_required

/-- The terminal status update a turn ends with, if any. -/
inductive Emit where
  | noStatus
  | status (st : TaskStateL) (finalFlag : Bool)
deriving DecidableEq

/-- Python truthiness of the optional reply string. -/
def contentTruthy : Option String → Option String
  | some c => if c = "" then none else some c
  | none => none

/--
Post-stream status emission of `WeatherAgentExecutor.execute` (lines
471-593): the pending-confirmation branch emits `input_required` and
returns; an absent reply emits a completed error turn; otherwise the final
`update_status` call sits inside the `else` branch of the
`"---a2ui_JSON---" in agent_response_content` test, so a reply containing
the delimiter produces no status update at all.
-/
def weatherPostStream (useUi pending : Bool) (action : Option String)
    (content : Option String) : Emit :=
  match contentTruthy content with
  | none => Emit.status TaskStateL.completed true
  | some c =>
    if useUi && pending &&
       !(hasInfixStr "temperature" (pyLower c) || hasInfixStr "forecast" (pyLower c)) then
      Emit.status TaskStateL.input_required false
    else if hasInfixStr "---a2ui_JSON---" c then
      Emit.noStatus
    else
      Emit.status (final_stateW action) (decide (final_stateW action = TaskStateL.completed))

/--
Post-stream status emission of `TwoAgentExecutor.execute` (lines 387-433):
whether or not the reply contains the delimiter, the turn ends with a
completed, final status update.
-/
def twoAgentPostStream (content : Option String) : Emit :=
  match contentTruthy content with
  | none => Emit.status TaskStateL.completed true
  | some _ => Emit.status TaskStateL.completed true

/-- Field access on a JSON object value. -/
def jGet (j : Json) (k : String) : Option Json :=
  match j with
  | Json.obj kvs => pyDictGet kvs k
  | _ => none

/-- The element list of an optional JSON array value. -/
def jArr : Option Json → List Json
  | some (Json.arr xs) => xs
  | _ => []

/--
`WeatherAgentExecutor._generate_confirmation_ui` (lines 88-232): the static
confirmation batch with action names `rejectAlerts` / `confirmAlerts`.
-/
def weather_generate_confirmation_ui (location : String) (latitude longitude : ℚ)
    (display_name state_code : String) : List Json :=
  [Json.obj
    [("beginRendering", Json.obj
      [("surfaceId", Json.str "weather-confirmation"),
       ("root", Json.str "root"),
       ("styles", Json.obj
         [("primaryColor", Json.str "#4CAF50"), ("font", Json.str "Roboto")])])],
   Json.obj
    [("surfaceUpdate", Json.obj
      [("surfaceId", Json.str "weather-confirmation"),
       ("components", Json.arr
         [Json.obj
           [("id", Json.str "root"),
            ("component", Json.obj
              [("Column", Json.obj
                [("children", Json.obj
                  [("explicitList", Json.arr
                    [Json.str "title", Json.str "forecastCheck",
                     Json.str "alertsCheck", Json.str "alertsConfirmRow"])]),
                 ("distribution", Json.str "start"),
                 ("alignment", Json.str "start")])])],
          Json.obj
           [("id", Json.str "title"),
            ("component", Json.obj
              [("Text", Json.obj
                [("text", Json.obj [("literalString", Json.str "Select Weather Actions")]),
                 ("usageHint", Json.str "h2")])])],
          Json.obj
           [("id", Json.str "forecastCheck"),
            ("component", Json.obj
              [("CheckBox", Json.obj
                [("label", Json.obj [("literalString", Json.str "Get current forecast")]),
                 ("value", Json.obj [("path", Json.str "/form/forecastSelected")])])])],
          Json.obj
           [("id", Json.str "alertsCheck"),
            ("component", Json.obj
              [("CheckBox", Json.obj
                [("label", Json.obj [("literalString", Json.str "Check weather alerts")]),
                 ("value", Json.obj [("path", Json.str "/form/alertsSelected")])])])],
          Json.obj
           [("id", Json.str "alertsConfirmRow"),
            ("component", Json.obj
              [("Row", Json.obj
                [("children", Json.obj
                  [("explicitList", Json.arr [Json.str "rejectBtn", Json.str "confirmBtn"])]),
                 ("distribution", Json.str "spaceEvenly"),
                 ("alignment", Json.str "center")])])],
          Json.obj
           [("id", Json.str "rejectBtn"),
            ("component", Json.obj
              [("Button", Json.obj
                [("child", Json.str "rejectBtnText"),
                 ("primary", Json.bool false),
                 ("action", Json.obj
                   [("name", Json.str "rejectAlerts"),
                    ("context", Json.arr
                      [Json.obj [("key", Json.str "alertsConfirmed"),
                                 ("value", Json.obj [("literalString", Json.str "rejected")])],
                       Json.obj [("key", Json.str "location"),
                                 ("value", Json.obj [("literalString", Json.str location)])],
                       Json.obj [("key", Json.str "latitude"),
                                 ("value", Json.obj [("literalNumber", Json.num (JNum.rat latitude))])],
                       Json.obj [("key", Json.str "longitude"),
                                 ("value", Json.obj [("literalNumber", Json.num (JNum.rat longitude))])],
                       Json.obj [("key", Json.str "display_name"),
                                 ("value", Json.obj [("literalString", Json.str display_name)])],
                       Json.obj [("key", Json.str "state_code"),
                                 ("value", Json.obj [("literalString", Json.str state_code)])],
                       Json.obj [("key", Json.str "forecastSelected"),
                                 ("value", Json.obj [("path", Json.str "/form/forecastSelected")])],
                       Json.obj [("key", Json.str "alertsSelected"),
                                 ("value", Json.obj [("path", Json.str "/form/alertsSelected")])]])])])])],
          Json.obj
           [("id", Json.str "rejectBtnText"),
            ("component", Json.obj
              [("Text", Json.obj
                [("text", Json.obj [("literalString", Json.str "Reject")])])])],
          Json.obj
           [("id", Json.str "confirmBtn"),
            ("component", Json.obj
              [("Button", Json.obj
                [("child", Json.str "confirmBtnText"),
                 ("primary", Json.bool true),
                 ("action", Json.obj
                   [("name", Json.str "confirmAlerts"),
                    ("context", Json.arr
                      [Json.obj [("key", Json.str "alertsConfirmed"),
                                 ("value", Json.obj [("literalString", Json.str "confirmed")])],
                       Json.obj [("key", Json.str "location"),
                                 ("value", Json.obj [("literalString", Json.str location)])],
                       Json.obj [("key", Json.str "latitude"),
                                 ("value", Json.obj [("literalNumber", Json.num (JNum.rat latitude))])],
                       Json.obj [("key", Json.str "longitude"),
                                 ("value", Json.obj [("literalNumber", Json.num (JNum.rat longitude))])],
                       Json.obj [("key", Json.str "display_name"),
                                 ("value", Json.obj [("literalString", Json.str display_name)])],
                       Json.obj [("key", Json.str "state_code"),
                                 ("value", Json.obj [("literalString", Json.str state_code)])],
                       Json.obj [("key", Json.str "forecastSelected"),
                                 ("value", Json.obj [("path", Json.str "/form/forecastSelected")])],
                       Json.obj [("key", Json.str "alertsSelected"),
                                 ("value", Json.obj [("path", Json.str "/form/alertsSelected")])]])])])])],
          Json.obj
           [("id", Json.str "confirmBtnText"),
            ("component", Json.obj
              [("Text", Json.obj
                [("text", Json.obj [("literalString", Json.str "Confirm")])])])]])])],
   Json.obj
    [("dataModelUpdate", Json.obj
      [("surfaceId", Json.str "weather-confirmation"),
       ("path", Json.str "/"),
       ("contents", Json.arr
         [Json.obj [("key", Json.str "display_name"), ("valueString", Json.str display_name)],
          Json.obj [("key", Json.str "location"), ("valueString", Json.str location)],
          Json.obj [("key", Json.str "latitude"), ("valueNumber", Json.num (JNum.rat latitude))],
          Json.obj [("key", Json.str "longitude"), ("valueNumber", Json.num (JNum.rat longitude))],
          Json.obj [("key", Json.str "state_code"), ("valueString", Json.str state_code)],
          Json.obj
            [("key", Json.str "form"),
             ("valueMap", Json.arr
               [Json.obj [("key", Json.str "forecastSelected"), ("valueBoolean", Json.bool true)],
                Json.obj [("key", Json.str "alertsSelected"), ("valueBoolean", Json.bool false)]])]])])]]

/--
`TwoAgentExecutor._generate_confirmation_ui` (lines 51-188): the static
confirmation batch with action names `rejectWeather` / `confirmWeather`.
-/
def two_generate_confirmation_ui (location : String) (latitude longitude : ℚ)
    (display_name state_code : String) : List Json :=
  [Json.obj
    [("beginRendering", Json.obj
      [("surfaceId", Json.str "weather-confirmation"),
       ("root", Json.str "root"),
       ("styles", Json.obj
         [("primaryColor", Json.str "#4CAF50"), ("font", Json.str "Roboto")])])],
   Json.obj
    [("surfaceUpdate", Json.obj
      [("surfaceId", Json.str "weather-confirmation"),
       ("components", Json.arr
         [Json.obj
           [("id", Json.str "root"),
            ("component", Json.obj
              [("Column", Json.obj
                [("children", Json.obj
                  [("explicitList", Json.arr
                    [Json.str "title", Json.str "forecastCheck",
                     Json.str "alertsCheck", Json.str "buttonRow"])]),
                 ("distribution", Json.str "start"),
                 ("alignment", Json.str "start")])])],
          Json.obj
           [("id", Json.str "title"),
            ("component", Json.obj
              [("Text", Json.obj
                [("text", Json.obj [("literalString", Json.str "Select Weather Actions")]),
                 ("usageHint", Json.str "h2")])])],
          Json.obj
           [("id", Json.str "forecastCheck"),
            ("component", Json.obj
              [("CheckBox", Json.obj
                [("label", Json.obj [("literalString", Json.str "Get current forecast")]),
                 ("value", Json.obj [("path", Json.str "/form/forecastSelected")])])])],
          Json.obj
           [("id", Json.str "alertsCheck"),
            ("component", Json.obj
              [("CheckBox", Json.obj
                [("label", Json.obj [("literalString", Json.str "Check weather alerts")]),
                 ("value", Json.obj [("path", Json.str "/form/alertsSelected")])])])],
          Json.obj
           [("id", Json.str "buttonRow"),
            ("component", Json.obj
              [("Row", Json.obj
                [("children", Json.obj
                  [("explicitList", Json.arr [Json.str "rejectBtn", Json.str "confirmBtn"])]),
                 ("distribution", Json.str "spaceEvenly"),
                 ("alignment", Json.str "center")])])],
          Json.obj
           [("id", Json.str "rejectBtn"),
            ("component", Json.obj
              [("Button", Json.obj
                [("child", Json.str "rejectText"),
                 ("primary", Json.bool false),
                 ("action", Json.obj
                   [("name", Json.str "rejectWeather"),
                    ("context", Json.arr
                      [Json.obj [("key", Json.str "confirmed"),
                                 ("value", Json.obj [("literalString", Json.str "rejected")])]])])])])],
          Json.obj
           [("id", Json.str "rejectText"),
            ("component", Json.obj
              [("Text", Json.obj
                [("text", Json.obj [("literalString", Json.str "Reject")])])])],
          Json.obj
           [("id", Json.str "confirmBtn"),
            ("component", Json.obj
              [("Button", Json.obj
                [("child", Json.str "confirmText"),
                 ("primary", Json.bool true),
                 ("action", Json.obj
                   [("name", Json.str "confirmWeather"),
                    ("context", Json.arr
                      [Json.obj [("key", Json.str "confirmed"),
                                 ("value", Json.obj [("literalString", Json.str "confirmed")])],
                       Json.obj [("key", Json.str "location"),
                                 ("value", Json.obj [("literalString", Json.str location)])],
                       Json.obj [("key", Json.str "latitude"),
                                 ("value", Json.obj [("literalNumber", Json.num (JNum.rat latitude))])],
                       Json.obj [("key", Json.str "longitude"),
                                 ("value", Json.obj [("literalNumber", Json.num (JNum.rat longitude))])],
                       Json.obj [("key", Json.str "display_name"),
                                 ("value", Json.obj [("literalString", Json.str display_name)])],
                       Json.obj [("key", Json.str "state_code"),
                                 ("value", Json.obj [("literalString", Json.str state_code)])],
                       Json.obj [("key", Json.str "forecastSelected"),
                                 ("value", Json.obj [("path", Json.str "/form/forecastSelected")])],
                       Json.obj [("key", Json.str "alertsSelected"),
                                 ("value", Json.obj [("path", Json.str "/form/alertsSelected")])]])])])])],
          Json.obj
           [("id", Json.str "confirmText"),
            ("component", Json.obj
              [("Text", Json.obj
                [("text", Json.obj [("literalString", Json.str "Confirm")])])])]])])],
   Json.obj
    [("dataModelUpdate", Json.obj
      [("surfaceId", Json.str "weather-confirmation"),
       ("path", Json.str "/"),
       ("contents", Json.arr
         [Json.obj [("key", Json.str "display_name"), ("valueString", Json.str display_name)],
          Json.obj [("key", Json.str "location"), ("valueString", Json.str location)],
          Json.obj [("key", Json.str "latitude"), ("valueNumber", Json.num (JNum.rat latitude))],
          Json.obj [("key", Json.str "longitude"), ("valueNumber", Json.num (JNum.rat longitude))],
          Json.obj [("key", Json.str "state_code"), ("valueString", Json.str state_code)],
          Json.obj
            [("key", Json.str "form"),
             ("valueMap", Json.arr
               [Json.obj [("key", Json.str "forecastSelected"), ("valueBoolean", Json.bool true)],
                Json.obj [("key", Json.str "alertsSelected"), ("valueBoolean", Json.bool false)]])]])])]]

/-- All components of the `surfaceUpdate` elements of a batch. -/
def componentsOf (batch : List Json) : List Json :=
  batch.foldr
    (fun m acc =>
      jArr (jGet m "surfaceUpdate" >>= fun s => jGet s "components") ++ acc) []

/-- Does a component carry the given kind under its `component` wrapper? -/
def componentKindIs (kind : String) (comp : Json) : Bool :=
  match jGet comp "component" with
  | some (Json.obj ckvs) => pyDictHas ckvs kind
  | _ => false

/-- Number of components of one kind in a batch. -/
def countKind (batch : List Json) (kind : String) : Nat :=
  ((componentsOf batch).filter (componentKindIs kind)).length

/-- Action names of the Button components of a batch, in order. -/
def buttonActionNames (batch : List Json) : List String :=
  (componentsOf batch).filterMap fun comp =>
    match (jGet comp "component" >>= fun c => jGet c "Button" >>= fun b =>
           jGet b "action" >>= fun a => jGet a "name") with
    | some (Json.str n) => some n
    | _ => none

/-- Does a contents/map entry have the given `key`? -/
def entryKeyIs (k : String) (e : Json) : Bool :=
  match jGet e "key" with
  | some (Json.str s) => s = k
  | _ => false

/-- The `valueBoolean` default stored under `form/<field>` by the
data-model update of a confirmation batch. -/
def dataModelFormDefault (batch : List Json) (field : String) : Option Json :=
  let contents := batch.foldr
    (fun m acc => jArr (jGet m "dataModelUpdate" >>= fun d => jGet d "contents") ++ acc) []
  let formEntries := (contents.filter (entryKeyIs "form")).foldr
    (fun e acc => jArr (jGet e "valueMap") ++ acc) []
  match formEntries.filter (entryKeyIs field) with
  | e :: _ => jGet e "valueBoolean"
  | [] => none

example : countKind (weather_generate_confirmation_ui "l" 1 2 "d" "s") "CheckBox" = 2 := by rfl
example : buttonActionNames (two_generate_confirmation_ui "l" 1 2 "d" "s") =
    ["rejectWeather", "confirmWeather"] := by rfl
example : dataModelFormDefault (weather_generate_confirmation_ui "l" 1 2 "d" "s")
    "forecastSelected" = some (Json.bool true) := by rfl

/-- The delimiter separating text from the structured payload. -/
def a2uiDelim : String := "---a2ui_JSON---"

/-- Failure classes of the UI-validation block of `WeatherAgent.stream`
(the caught `ValueError` / `JSONDecodeError` / `ValidationError`). -/
inductive UiErr where
  | delimiterMissing
  | emptyJson
  | emptyCleaned
  | parseError
  | schemaError
deriving DecidableEq

def backtick : Char := Char.ofNat 96

/-- `json_string.strip().lstrip("` ``json ` ").rstrip("` `` `").strip()`
(Python `lstrip`/`rstrip` take character sets, not prefixes). -/
def cleanJsonPart (jsonPart : List Char) : List Char :=
  stripPy (rstripSet [backtick] (lstripSet [backtick, 'j', 's', 'o', 'n'] (stripPy jsonPart)))

/--
The UI-validation block of `WeatherAgent.stream` (lines 333-421): split on
the delimiter, reject empty payloads, clean fencing, apply `_repair_json`,
parse (with one `_repair_json_aggressive` re-attempt on parse failure), and
check the parsed value against the array-wrapped `A2UI_SCHEMA`.  Returns
the failure class, or `none` on success.
-/
def validateUi (content : String) : Option UiErr :=
  match splitFirst a2uiDelim.toList content.toList with
  | none => some UiErr.delimiterMissing
  | some p =>
    let json_string := p.2
    if stripPy json_string = [] then some UiErr.emptyJson
    else
      let cleaned := cleanJsonPart json_string
      if cleaned = [] then some UiErr.emptyCleaned
      else
        let repaired := repair_json cleaned
        match jsonLoads repaired with
        | some v =>
          if jsonschema_validate a2ui_schema_object v then none else some UiErr.schemaError
        | none =>
          match jsonLoads (repair_json_aggressive repaired) with
          | some v =>
            if jsonschema_validate a2ui_schema_object v then none else some UiErr.schemaError
          | none => some UiErr.parseError

/-- One generation-collaborator turn: how many intermediate (non-final)
events arrive, and the part texts of the final event (if one arrives). -/
structure GenTurn where
  working : Nat
  finalParts : Option (List String)

/-- `"\n".join(...)`. -/
def joinNL : List String → String
  | [] => ""
  | [x] => x
  | x :: xs => x ++ "\n" ++ joinNL xs

/-- Extraction of `final_response_content` from the final event
(`WeatherAgent.stream` lines 299-307): requires a non-empty first part text,
then joins the non-empty part texts. -/
def finalContent (t : GenTurn) : Option String :=
  match t.finalParts with
  | none => none
  | some [] => none
  | some (p0 :: ps) =>
    if p0 = "" then none
    else some (joinNL ((p0 :: ps).filter (fun p => p ≠ "")))

/-- One item yielded by `WeatherAgent.stream`: a working update
(`is_task_complete = False`) or the final content (`is_task_complete = True`). -/
inductive StreamItem where
  | workingUpd (updates : String)
  | complete (content : String)
deriving DecidableEq

structure StreamResult where
  items : List StreamItem
  calls : List String
deriving DecidableEq

def processingMsg : String := "Fetching weather information..."

def configErrorMsg : String :=
  "I\x27m sorry, I\x27m facing an internal configuration error with my UI components. Please contact support."

def noResponseFallback : String :=
  "I\x27m sorry, I encountered an error and couldn\x27t process your request."

def uiApologyMsg : String :=
  "I\x27m sorry, I\x27m having trouble generating the interface for that request right now. Please try again in a moment."

def noResponseRetryQuery (query : String) : String :=
  "I received no response. Please try again. Please retry the original request: \x27" ++
  query ++ "\x27"

def validationErrorMessage (errStr : String) : String :=
  "Validation failed: " ++ errStr ++ "."

def invalidRetryQuery (errStr query : String) : String :=
  "Your previous response was invalid. " ++ validationErrorMessage errStr ++
  " You MUST generate a valid response that strictly follows the A2UI JSON SCHEMA. " ++
  "The response MUST be a JSON list of A2UI messages. " ++
  "Ensure the response is split by \x27---a2ui_JSON---\x27 and the JSON part is well-formed. " ++
  "Please retry the original request: \x27" ++ query ++ "\x27"

/--
The retry loop of `WeatherAgent.stream` (lines 281-458): `rem` is the number
of loop iterations still permitted (`max_retries + 1 - (attempt - 1)` for
`max_retries = 1`), `attempt` indexes the generation turn, `curQ` is
`current_query_text`.  Each iteration yields one working item per
intermediate event, then either completes with validated content, retries
with a corrective query, or (once the budget is spent) completes with the
fixed apology.  `calls` records the query of every generation invocation.
`errText` renders the caught exception into `error_message` (its text comes
from the Python exception, outside this model).
-/
def streamGo (useUi : Bool) (gen : Nat → GenTurn) (errText : UiErr → String)
    (query : String) : Nat → Nat → String → StreamResult
  | 0, _, _ => { items := [], calls := [] }
  | rem + 1, attempt, curQ =>
    let t := gen attempt
    let workings := List.replicate t.working (StreamItem.workingUpd processingMsg)
    match finalContent t with
    | none =>
      if rem > 0 then
        let rest := streamGo useUi gen errText query rem (attempt + 1) (noResponseRetryQuery query)
        { items := workings ++ rest.items, calls := curQ :: rest.calls }
      else
        let c := noResponseFallback
        match (if useUi then validateUi c else none) with
        | none => { items := workings ++ [StreamItem.complete c], calls := [curQ] }
        | some _ => { items := workings ++ [StreamItem.complete uiApologyMsg], calls := [curQ] }
    | some c =>
      match (if useUi then validateUi c else none) with
      | none => { items := workings ++ [StreamItem.complete c], calls := [curQ] }
      | some err =>
        if rem > 0 then
          let rest := streamGo useUi gen errText query rem (attempt + 1)
            (invalidRetryQuery (errText err) query)
          { items := workings ++ rest.items, calls := curQ :: rest.calls }
        else
          { items := workings ++ [StreamItem.complete uiApologyMsg], calls := [curQ] }

/--
`WeatherAgent.stream`: with `use_ui` set and no loaded schema the stream is a
single completed configuration-error item; otherwise the retry loop runs
with `max_retries = 1` (at most two generation invocations).
-/
def streamRun (useUi schemaLoaded : Bool) (gen : Nat → GenTurn)
    (errText : UiErr → String) (query : String) : StreamResult :=
  if useUi && !schemaLoaded then
    { items := [StreamItem.complete configErrorMsg], calls := [] }
  else
    streamGo useUi gen errText query 2 1 query

example :
    validateUi "hi" = some UiErr.delimiterMissing := by decide
example :
    validateUi ("ok " ++ a2uiDelim ++ " [\x7b\"deleteSurface\": \x7b\"surfaceId\": \"s\"\x7d\x7d]") = none := by decide
example :
    validateUi ("ok " ++ a2uiDelim ++ " [\x7b\"deleteSurface\": \x7b\x7d\x7d]") = some UiErr.schemaError := by decide
example :
    validateUi ("ok " ++ a2uiDelim ++ " [nope") = some UiErr.parseError := by decide
example :
    validateUi ("ok " ++ a2uiDelim ++ "   ") = some UiErr.emptyJson := by decide

theorem finalContent_ne_empty (t : GenTurn) (c : String)
    (h : finalContent t = some c) : c ≠ "" := by
  unfold finalContent at h
  split at h
  · exact absurd h (by simp)
  · exact absurd h (by simp)
  · next p0 ps heq =>
    split at h
    · exact absurd h (by simp)
    · next hp0 =>
      simp only [Option.some_inj] at h
      subst h
      have hfil : (p0 :: ps).filter (fun p => p ≠ "") = p0 :: ps.filter (fun p => p ≠ "") := by
        simp [List.filter_cons, hp0]
      rw [hfil]
      rcases hps : ps.filter (fun p => p ≠ "") with _ | ⟨q, qs⟩
      · simpa [joinNL] using hp0
      · simp only [joinNL]
        intro hcon
        have hlen : (p0 ++ "\n" ++ joinNL (q :: qs)).length = 0 := by rw [hcon]; rfl
        simp only [String.length_append] at hlen
        have hnl : ("\n" : String).length = 1 := rfl
        omega

theorem streamGo_calls_length (useUi : Bool) (gen : Nat → GenTurn)
    (errText : UiErr → String) (query : String) :
    ∀ rem attempt curQ,
      (streamGo useUi gen errText query rem attempt curQ).calls.length ≤ rem := by
  intro rem
  induction rem with
  | zero => intro attempt curQ; simp [streamGo]
  | succ rem ih =>
    intro attempt curQ
    simp only [streamGo]
    split
    · split
      · simp only [List.length_cons]
        exact Nat.succ_le_succ (ih _ _)
      · split <;> simp
    · split
      · simp
      · split
        · simp only [List.length_cons]
          exact Nat.succ_le_succ (ih _ _)
        · simp

theorem streamGo_terminal_shape (useUi : Bool) (gen : Nat → GenTurn)
    (errText : UiErr → String) (query : String) :
    ∀ rem attempt curQ, 0 < rem →
      ∃ ws c, (streamGo useUi gen errText query rem attempt curQ).items =
          ws ++ [StreamItem.complete c] ∧ c ≠ "" ∧
          ∀ x ∈ ws, ∃ u, x = StreamItem.workingUpd u := by
  intro rem
  induction rem with
  | zero => intro _ _ h; exact absurd h (by simp)
  | succ rem ih =>
    intro attempt curQ _
    have hwork : ∀ x ∈ List.replicate (gen attempt).working (StreamItem.workingUpd processingMsg),
        ∃ u, x = StreamItem.workingUpd u := by
      intro x hx
      exact ⟨processingMsg, List.eq_of_mem_replicate hx⟩
    simp only [streamGo]
    split
    · split
      · next hrem =>
        obtain ⟨ws, c, hitems, hc, hws⟩ := ih (attempt + 1) (noResponseRetryQuery query) hrem
        refine ⟨List.replicate (gen attempt).working (StreamItem.workingUpd processingMsg) ++ ws,
          c, ?_, hc, ?_⟩
        · simp only [hitems, List.append_assoc]
        · intro x hx
          rcases List.mem_append.mp hx with hx | hx
          · exact hwork x hx
          · exact hws x hx
      · split
        · exact ⟨_, noResponseFallback, rfl, by decide, hwork⟩
        · exact ⟨_, uiApologyMsg, rfl, by decide, hwork⟩
    · next c hfc =>
      split
      · exact ⟨_, c, rfl, finalContent_ne_empty (gen attempt) c hfc, hwork⟩
      · next err heq =>
        split
        · next hrem =>
          obtain ⟨ws, c2, hitems, hc, hws⟩ :=
            ih (attempt + 1) (invalidRetryQuery (errText err) query) hrem
          refine ⟨List.replicate (gen attempt).working (StreamItem.workingUpd processingMsg) ++ ws,
            c2, ?_, hc, ?_⟩
          · simp only [hitems, List.append_assoc]
          · intro x hx
            rcases List.mem_append.mp hx with hx | hx
            · exact hwork x hx
            · exact hws x hx
        · exact ⟨_, uiApologyMsg, rfl, by decide, hwork⟩

/--
C1: the claim says the schema check accepts a batch iff it is a sequence
whose elements each contain exactly one of the four action keys (with valid
payloads), and in particular rejects elements with zero or two of them.  The
code's schema has no `oneOf` and no message-level `required`, so
`jsonschema.validate` accepts an element with zero of the four keys and an
element with two of them (each payload valid), contradicting the claim and
the schema's own description; non-sequences are still rejected.
-/
theorem C1_schema_accepts_missing_and_duplicate_actions :
    jsonschema_validate a2ui_schema_object (Json.arr [Json.obj []]) = true ∧
    actionKeyCount [] = 0 ∧
    jsonschema_validate a2ui_schema_object
      (Json.arr [Json.obj
        [("beginRendering", Json.obj [("surfaceId", Json.str "s"), ("root", Json.str "r")]),
         ("deleteSurface", Json.obj [("surfaceId", Json.str "s")])]]) = true ∧
    actionKeyCount
      [("beginRendering", Json.obj [("surfaceId", Json.str "s"), ("root", Json.str "r")]),
       ("deleteSurface", Json.obj [("surfaceId", Json.str "s")])] = 2 ∧
    jsonschema_validate a2ui_schema_object (Json.str "not a sequence") = false := by
  refine ⟨by decide, by decide, by decide, by decide, by decide⟩

/--
C2: the claim says every processed turn that produces an agent reply ends
with a terminal task-state update, including replies containing the
delimiter.  In `WeatherAgentExecutor.execute` the final `update_status`
call sits inside the `else` branch of the delimiter test, so a reply
containing `---a2ui_JSON---` ends the turn with no status update at all,
while `TwoAgentExecutor.execute` emits a completed final status for the
same reply.
-/
theorem C2_weather_executor_delimiter_reply_no_status :
    weatherPostStream true false none (some "Here you go ---a2ui_JSON--- []") = Emit.noStatus ∧
    twoAgentPostStream (some "Here you go ---a2ui_JSON--- []") =
      Emit.status TaskStateL.completed true ∧
    weatherPostStream true false none none = Emit.status TaskStateL.completed true := by
  refine ⟨by decide, by decide, by decide⟩

/--
C3 counterexample: the claim says neither repair function ever rewrites
well-formed JSON.  `_repair_json` rewrites the well-formed `[",}"]` (the
`,}` inside the string literal matches its regex), and
`_repair_json_aggressive` rewrites the well-formed `{"a": [1]}` (its
line-truncation step drops everything after the only `]` of the line).
-/
theorem C3_counterexample_repair_rewrites_wellformed_json :
    (jsonLoads "[\",\x7d\"]".toList).isSome = true ∧
    repair_json "[\",\x7d\"]".toList ≠ "[\",\x7d\"]".toList ∧
    (jsonLoads "\x7b\"a\": [1]\x7d".toList).isSome = true ∧
    repair_json_aggressive "\x7b\"a\": [1]\x7d".toList ≠ "\x7b\"a\": [1]\x7d".toList := by
  refine ⟨by decide, by decide, by decide, by decide⟩

/--
C3 amended: `_repair_json` leaves unchanged every input that parses as JSON
and contains no comma followed by optional whitespace and a closing brace,
bracket or parenthesis (inside or outside string literals); well-formed
payloads whose string literals contain such patterns are rewritten, and the
aggressive repair can rewrite well-formed JSON regardless.
-/
theorem C3_repair_json_preserves_matchfree_json (x : List Char)
    (hjson : (jsonLoads x).isSome = true)
    (h1 : hasTrailMatch '}' x = false) (h2 : hasTrailMatch ']' x = false)
    (h3 : hasTrailMatch ')' x = false) :
    repair_json x = x := by
  unfold repair_json
  rw [reSubTrailing_no_match '}' x h1, reSubTrailing_no_match ']' x h2,
    reSubTrailing_no_match ')' x h3]

/-- C3 witness: the amended theorem applied to the well-formed `[1, 2]`. -/
theorem C3_repair_json_preserves_matchfree_json_witness :
    repair_json "[1, 2]".toList = "[1, 2]".toList :=
  C3_repair_json_preserves_matchfree_json "[1, 2]".toList (by decide) (by decide)
    (by decide) (by decide)

/--
C4 counterexample: the claim says both repair functions are idempotent,
including on consecutive trailing separators such as `,,}`.  One pass of
`_repair_json` over `,,}` removes only the second comma (the regex match is
non-overlapping), so a second pass removes more; `_repair_json_aggressive`
applies its comma regexes twice per invocation, so `,,,}` exhibits the same
failure for it.
-/
theorem C4_counterexample_repair_not_idempotent :
    repair_json (repair_json ",,\x7d".toList) ≠ repair_json ",,\x7d".toList ∧
    repair_json_aggressive (repair_json_aggressive ",,,\x7d".toList) ≠
      repair_json_aggressive ",,,\x7d".toList := by
  refine ⟨by decide, by decide⟩

/--
C4 amended: `_repair_json` is idempotent on every input in which no two
commas are separated only by whitespace (in particular on any single
trailing separator); with consecutive separators it is not, and the
aggressive repair is not idempotent in general.
-/
theorem C4_repair_json_idempotent_without_comma_pairs (x : List Char)
    (h : hasCommaPair x = false) :
    repair_json (repair_json x) = repair_json x :=
  repair_json_fixed_point x h

/-- C4 witness: the amended theorem applied to `[1,]`. -/
theorem C4_repair_json_idempotent_without_comma_pairs_witness :
    repair_json (repair_json "[1,]".toList) = repair_json "[1,]".toList :=
  C4_repair_json_idempotent_without_comma_pairs "[1,]".toList (by decide)

/--
C5: the claim says that on a payload with exactly one unmatched `{` and one
unmatched `[` the aggressive repair inserts exactly one `}` and one `]` and
the result parses.  On `[{"a": [1]` (one surplus `{`, one surplus `[`) the
balance step recounts the text before the final `]` — double-counting the
bracket that `]` itself closes — and inserts `]]}`; the result does not
parse.  On `[ {` (no closing bracket at all) the appended `]}` is immediately
mangled by the line-truncation step, which deletes the inserted `}`; the
result `[ {]` does not parse either.  The logged message claims the missing
counts are inserted, contradicting the insertion actually performed.
-/
theorem C5_balance_repair_overinserts_and_fails_to_parse :
    ("[\x7b\"a\": [1]".toList.count '\x7b' = 1 ∧ "[\x7b\"a\": [1]".toList.count '\x7d' = 0 ∧
     "[\x7b\"a\": [1]".toList.count '[' = 2 ∧ "[\x7b\"a\": [1]".toList.count ']' = 1) ∧
    repair_json_aggressive "[\x7b\"a\": [1]".toList = "[\x7b\"a\": [1]]\x7d]".toList ∧
    (jsonLoads (repair_json_aggressive "[\x7b\"a\": [1]".toList)).isSome = false ∧
    ("[ \x7b".toList.count '\x7b' = 1 ∧ "[ \x7b".toList.count '\x7d' = 0 ∧
     "[ \x7b".toList.count '[' = 1 ∧ "[ \x7b".toList.count ']' = 0) ∧
    repair_json_aggressive "[ \x7b".toList = "[ \x7b]".toList ∧
    (jsonLoads (repair_json_aggressive "[ \x7b".toList)).isSome = false := by
  refine ⟨by decide, by decide, by decide, by decide, by decide, by decide⟩

/--
C6 counterexample: the claim says both executors decode a string selection
as true exactly for `"true"`, `"1"`, `"yes"` (case-insensitive) and decode
an unresolved data-model-path reference as false.  `TwoAgentExecutor`
accepts only `"true"` among strings (`"1"` and `"yes"` decode to false) and
treats an unresolved path as selected (true).
-/
theorem C6_counterexample_twoagent_decode :
    decodeSelectionTwo (Json.obj [("path", Json.str "/form/forecastSelected")]) =
      Json.bool true ∧
    decodeSelectionTwo (Json.str "1") = Json.bool false ∧
    decodeSelectionTwo (Json.str "yes") = Json.bool false := by
  refine ⟨rfl, rfl, rfl⟩

/--
C6 amended: `WeatherAgentExecutor` decodes as the claim states (literal
booleans pass through, a string is true exactly for `"true"`/`"1"`/`"yes"`
case-insensitively, an unresolved path decodes to false with a logged
warning); `TwoAgentExecutor` instead accepts only `"true"` among strings
and decodes an unresolved path to true.
-/
theorem C6_selection_decoders :
    (∀ b : Bool, decodeSelectionWeather (Json.bool b) = Json.bool b) ∧
    (∀ s : String, decodeSelectionWeather (Json.str s) = Json.bool true ↔
        (pyLower s = "true" ∨ pyLower s = "1" ∨ pyLower s = "yes")) ∧
    (∀ p : Json, decodeSelectionWeather (Json.obj [("path", p)]) = Json.bool false) ∧
    (∀ b : Bool, decodeSelectionTwo (Json.bool b) = Json.bool b) ∧
    (∀ s : String, decodeSelectionTwo (Json.str s) = Json.bool true ↔ pyLower s = "true") ∧
    (∀ p : Json, decodeSelectionTwo (Json.obj [("path", p)]) = Json.bool true) := by
  refine ⟨fun b => rfl, fun s => ?_, fun p => rfl, fun b => rfl, fun s => ?_, fun p => rfl⟩
  · simp only [decodeSelectionWeather, Json.bool.injEq]
    constructor
    · intro h
      rcases Bool.or_eq_true_iff.mp h with h | h
      · rcases Bool.or_eq_true_iff.mp h with h | h
        · exact Or.inl (of_decide_eq_true h)
        · exact Or.inr (Or.inl (of_decide_eq_true h))
      · exact Or.inr (Or.inr (of_decide_eq_true h))
    · intro h
      rcases h with h | h | h <;> simp [h]
  · simp only [decodeSelectionTwo, Json.bool.injEq]
    constructor
    · intro h
      exact of_decide_eq_true h
    · intro h
      simp [h]

/--
C7 counterexample: the claim says both executors' reject handlers
short-circuit to a completed turn with a fixed acknowledgement, without
invoking the agent's generation loop.  `WeatherAgentExecutor`'s
`rejectAlerts` branch instead builds a rejection notice and forwards it to
the agent's generation loop as the query.
-/
theorem C7_counterexample_weather_reject_invokes_agent :
    routeWeatherExec (fun j => match j with | Json.str s => s | _ => "?") (fun _ => "")
      (some "rejectAlerts") [("display_name", Json.str "Boston")] =
    RoutedTurn.invoke
      "User rejected weather query for Boston. No weather data will be fetched." := by
  rfl

/--
C7 amended: `TwoAgentExecutor`'s reject handler short-circuits to a
completed turn with the fixed acknowledgement and never reaches the agent;
`WeatherAgentExecutor`'s reject handler instead forwards a fixed rejection
notice (mentioning the display name) to the generation loop, although its
`final_state` for `rejectAlerts` is still `completed`.
-/
theorem C7_reject_routing (render : Json → String)
    (showCtx : List (String × Json) → String) (ctx : List (String × Json)) :
    routeTwoAgent render (some "rejectWeather") ctx =
      RoutedTurn.shortCircuit "No problem! Let me know if you change your mind." ∧
    routeWeatherExec render showCtx (some "rejectAlerts") ctx =
      RoutedTurn.invoke
        ("User rejected weather query for " ++
          render ((pyDictGet ctx "display_name").getD
            ((pyDictGet ctx "location").getD (Json.str "Unknown Location"))) ++
          ". No weather data will be fetched.") ∧
    final_stateW (some "rejectAlerts") = TaskStateL.completed := by
  refine ⟨rfl, rfl, rfl⟩

/--
C8: in structured-output mode the generation collaborator is invoked at most
`max_retries + 1 = 2` times; a validated first reply means exactly one
invocation; a failed first attempt triggers exactly one corrective
re-invocation whose query embeds the rendered diagnostic and the original
query verbatim; and after two consecutive validation failures the final
yielded item is the fixed apology, which contains no delimiter (hence no
structured payload).
-/
theorem C8_retry_loop_bounds (gen : Nat → GenTurn) (errText : UiErr → String)
    (query : String) :
    (streamRun true true gen errText query).calls.length ≤ 2 ∧
    (∀ c, finalContent (gen 1) = some c → validateUi c = none →
        (streamRun true true gen errText query).calls = [query]) ∧
    (∀ c err, finalContent (gen 1) = some c → validateUi c = some err →
        (streamRun true true gen errText query).calls =
          [query, invalidRetryQuery (errText err) query]) ∧
    (∀ err, ∃ pre mid post,
        invalidRetryQuery (errText err) query =
          pre ++ errText err ++ mid ++ query ++ post) ∧
    (∀ c1 err1 c2 err2, finalContent (gen 1) = some c1 → validateUi c1 = some err1 →
        finalContent (gen 2) = some c2 → validateUi c2 = some err2 →
        (streamRun true true gen errText query).items.getLast? =
          some (StreamItem.complete uiApologyMsg)) ∧
    hasInfixStr a2uiDelim uiApologyMsg = false := by
  have hrun : streamRun true true gen errText query = streamGo true gen errText query 2 1 query := rfl
  refine ⟨?_, ?_, ?_, ?_, ?_, by decide⟩
  · rw [hrun]
    exact streamGo_calls_length true gen errText query 2 1 query
  · intro c hc hv
    rw [hrun]
    simp [streamGo, hc, hv]
  · intro c err hc hv
    rw [hrun]
    simp only [streamGo, hc, hv, show (1 : Nat) + 1 = 2 from rfl]
    rcases hfc2 : finalContent (gen 2) with _ | c2
    · simp only [hfc2]
      rcases hnv : validateUi noResponseFallback with _ | e <;> simp [hnv]
    · simp only [hfc2]
      rcases hv2 : validateUi c2 with _ | e2 <;> simp [hv2]
  · intro err
    refine ⟨"Your previous response was invalid. " ++ "Validation failed: ",
      "." ++ " You MUST generate a valid response that strictly follows the A2UI JSON SCHEMA. " ++
        "The response MUST be a JSON list of A2UI messages. " ++
        "Ensure the response is split by \x27---a2ui_JSON---\x27 and the JSON part is well-formed. " ++
        "Please retry the original request: \x27",
      "\x27", ?_⟩
    simp only [invalidRetryQuery, validationErrorMessage, String.append_assoc]
  · intro c1 err1 c2 err2 hc1 hv1 hc2 hv2
    rw [hrun]
    simp only [streamGo, hc1, hv1, show (1 : Nat) + 1 = 2 from rfl, hc2, hv2]
    simp [List.getLast?_append]

/--
C8 witness: a generation collaborator whose replies never contain the
delimiter drives the loop through both attempts, the second with the
corrective query, and the stream ends with the fixed apology item.
-/
theorem C8_retry_loop_bounds_witness :
    (streamRun true true (fun _ => ⟨0, some ["bad"]⟩) (fun _ => "E") "q").calls =
      ["q", invalidRetryQuery "E" "q"] ∧
    (streamRun true true (fun _ => ⟨0, some ["bad"]⟩) (fun _ => "E") "q").items.getLast? =
      some (StreamItem.complete uiApologyMsg) :=
  ⟨(C8_retry_loop_bounds (fun _ => ⟨0, some ["bad"]⟩) (fun _ => "E") "q").2.2.1 "bad"
      UiErr.delimiterMissing (by decide) (by decide),
   (C8_retry_loop_bounds (fun _ => ⟨0, some ["bad"]⟩) (fun _ => "E") "q").2.2.2.2.1 "bad"
      UiErr.delimiterMissing "bad" UiErr.delimiterMissing (by decide) (by decide)
      (by decide) (by decide)⟩

/--
C9: for every input, both executors' synthesized confirmation batches
contain exactly two CheckBox components and exactly two Button components,
the buttons' action names are the reject and confirm actions of the
respective executor, and the data-model update defaults the form to
`forecastSelected = true`, `alertsSelected = false`.
-/
theorem C9_confirmation_ui_components (location : String) (latitude longitude : ℚ)
    (display_name state_code : String) :
    countKind (weather_generate_confirmation_ui location latitude longitude display_name state_code)
      "CheckBox" = 2 ∧
    countKind (weather_generate_confirmation_ui location latitude longitude display_name state_code)
      "Button" = 2 ∧
    buttonActionNames (weather_generate_confirmation_ui location latitude longitude display_name state_code) =
      ["rejectAlerts", "confirmAlerts"] ∧
    dataModelFormDefault (weather_generate_confirmation_ui location latitude longitude display_name state_code)
      "forecastSelected" = some (Json.bool true) ∧
    dataModelFormDefault (weather_generate_confirmation_ui location latitude longitude display_name state_code)
      "alertsSelected" = some (Json.bool false) ∧
    countKind (two_generate_confirmation_ui location latitude longitude display_name state_code)
      "CheckBox" = 2 ∧
    countKind (two_generate_confirmation_ui location latitude longitude display_name state_code)
      "Button" = 2 ∧
    buttonActionNames (two_generate_confirmation_ui location latitude longitude display_name state_code) =
      ["rejectWeather", "confirmWeather"] ∧
    dataModelFormDefault (two_generate_confirmation_ui location latitude longitude display_name state_code)
      "forecastSelected" = some (Json.bool true) ∧
    dataModelFormDefault (two_generate_confirmation_ui location latitude longitude display_name state_code)
      "alertsSelected" = some (Json.bool false) := by
  exact ⟨rfl, rfl, rfl, rfl, rfl, rfl, rfl, rfl, rfl, rfl⟩

/--
C10: every normally terminating run of `WeatherAgent.stream` (over any
sequence of generation-collaborator events) yields exactly one item with
`is_task_complete = True`; it is the last item, its content is a non-empty
string, and every earlier item is a working update.
-/
theorem C10_stream_single_terminal_item (useUi schemaLoaded : Bool)
    (gen : Nat → GenTurn) (errText : UiErr → String) (query : String) :
    ∃ ws c, (streamRun useUi schemaLoaded gen errText query).items =
        ws ++ [StreamItem.complete c] ∧ c ≠ "" ∧
        ∀ x ∈ ws, ∃ u, x = StreamItem.workingUpd u := by
  unfold streamRun
  split
  · exact ⟨[], configErrorMsg, rfl, by decide, by simp⟩
  · exact streamGo_terminal_shape useUi gen errText query 2 1 query (by decide)
